import Mathlib

/-!
Verification of the f5xc blindfold/wingman library against its specification.

The Go source is shallowly embedded: wire data ([]byte) is modelled as
List Nat with byte values, strings as Lean String, the pseudo-random source
of math/rand.Intn as an oracle function Nat → Nat (draw index to value,
reduced modulo the bound), Go errors as an explicit wrap tree, and the
filesystem effects of the seal path as explicit created/removed traces
driven by a failure-injection oracle.
-/

namespace F5xc

/-- Bytes of a Lean string, modelling a Go string or []byte literal. -/
def strBytes (s : String) : List Nat := s.data.map Char.toNat

/-! ## blindfold.RandomString and the vesctl child environment

Source: src/blindfold/blindfold.go, RandomString (lines 43-53) and the
cmd.Env assignment in ExecuteVesctl (lines 98-106). In Go, a child process
inherits the parent environment exactly when cmd.Env is nil; ExecuteVesctl
assigns an explicit six-element slice, so the ambient environment is taken
as a parameter here and provably unused. rand.Intn(n) is modelled as an
oracle draw reduced modulo n. -/

/-- Alphabet of RandomString, from the randomStringChars constant. -/
def randomStringChars : List Char :=
  "abcdefghijklmnopqrstuvwxyzABCDEFGHIJKLMNOPQRSTUVWXYZ012345689_".toList

/-- Model of blindfold.RandomString: n draws from the fixed alphabet, the
i-th character indexed by the i-th value of the random oracle. -/
def RandomString (rnd : Nat → Nat) (n : Nat) : String :=
  String.mk ((List.range n).map fun i =>
    randomStringChars.get ⟨rnd i % randomStringChars.length, Nat.mod_lt _ (by decide)⟩)

/-- Model of the cmd.Env assignment in ExecuteVesctl. ambientEnv is the
calling process environment; the Go code sets cmd.Env to an explicit list,
so the model never reads ambientEnv. emptyInputFile is the path of the
decoy file created by the same invocation; rnd1 and rnd2 are the random
draws of the two RandomString(16) calls. -/
def executeVesctlEnv (ambientEnv : List (String × String)) (emptyInputFile : String)
    (rnd1 rnd2 : Nat → Nat) : List (String × String) :=
  [("VES_P12_PASSWORD", RandomString rnd1 16),
   ("VOLT_API_P12_FILE", emptyInputFile),
   ("VOLT_API_CERT", emptyInputFile),
   ("VOLT_API_KEY", emptyInputFile),
   ("VOLT_API_URL", "https://f5xc.invalid/api"),
   ("VOLTERRA_TOKEN", RandomString rnd2 16)]

/-! ## Go error values and ExecuteVesctl failure wrapping

Source: src/blindfold/blindfold.go lines 23-25 (ErrVesctl) and 65-116
(ExecuteVesctl). Go errors are modelled as a tree: errVesctl is the
package sentinel, osErr an error produced by the operating system or the
exec package, exitErr the ExitError for a non-zero or killed process, and
wrap and wrap2 the results of fmt.Errorf with one and two w-verbs. errors.Is
walks the wrap tree comparing against the target sentinel. -/

inductive GoErr : Type
  | errVesctl : GoErr
  | osErr (msg : String) : GoErr
  | exitErr (code : Nat) : GoErr
  | wrap (msg : String) (inner : GoErr) : GoErr
  | wrap2 (msg : String) (e1 e2 : GoErr) : GoErr
deriving DecidableEq

/-- Model of errors.Is over the wrap tree. -/
def errorIs (e target : GoErr) : Bool :=
  (e == target) ||
    match e with
    | .wrap _ inner => errorIs inner target
    | .wrap2 _ e1 e2 => errorIs e1 target || errorIs e2 target
    | _ => false

/-- Error flow of ExecuteVesctl. createTempErr and closeErr are the staging
failures before the launch; runErr is the error returned by cmd.Run, which
in Go covers both a failed launch (an os-level error from Start) and a
started process that exits non-zero or is killed (an ExitError from Wait).
Source lines 65-77 and 111-115. -/
def executeVesctlErr (createTempErr closeErr : Option String) (runErr : Option GoErr) :
    Option GoErr :=
  match createTempErr with
  | some m => some (.wrap "failed to create empty file" (.osErr m))
  | none =>
    match closeErr with
    | some m => some (.wrap "failed to close empty file" (.osErr m))
    | none => runErr.map fun e => .wrap2 "failure while executing vesctl" e .errVesctl

/-! ## Wingman unseal request construction

Source: the wingman unseal client, UnsealEncoded (request construction at
lines 548-556 of the concatenated test file) and the Default wrappers
(lines 590-601), with the constants UnsealEndpoint and DefaultWingmanURL
from src/wingman/status.go lines 18-22. -/

def UnsealEndpoint : String := "/secret/unseal"

def DefaultWingmanURL : String := "http://localhost:8070"

/-- HTTP request visible fields as built by UnsealEncoded. -/
structure HTTPRequest : Type where
  method : String
  url : String
  contentType : String
  body : List Nat
deriving DecidableEq

/-- Request body of UnsealEncoded: three consecutive buffer writes, the
sealed bytes embedded verbatim between the two literal fragments. -/
def unsealBody (sealed : List Nat) : List Nat :=
  strBytes "\x7b\"type\":\"blindfold\",\"location\":\"string:///" ++ sealed
    ++ strBytes "\"\x7d"

/-- Request built by UnsealEncoded: POST to the endpoint argument exactly
as given, Content-Type application/json, body from unsealBody. -/
def unsealRequest (endpoint : String) (sealed : List Nat) : HTTPRequest :=
  { method := "POST"
    url := endpoint
    contentType := "application/json"
    body := unsealBody sealed }

/-- Request issued by DefaultUnsealEncoded, which calls UnsealEncoded with
DefaultWingmanURL ++ UnsealEndpoint as the endpoint. -/
def defaultUnsealRequest (sealed : List Nat) : HTTPRequest :=
  unsealRequest (DefaultWingmanURL ++ UnsealEndpoint) sealed

/-! ## Standard base64 and the unseal response classification

Source: the response handling of UnsealEncoded (lines 559-582 of the
concatenated test file) together with ErrDeniedByPolicy and
ErrUnexpectedHTTPStatus (lines 512-516) and wingman.ErrNotReady
(src/wingman/status.go line 25). The encoding is RFC 4648 standard base64
with padding, as implemented by the base64.StdEncoding calls in the Go
source; the decoder rejects bytes outside the alphabet, misplaced padding
and a length that is not a multiple of four. Two liberties of the Go
library decoder are not modelled: it skips CR and LF bytes inside the
input, and it accepts non-zero trailing padding bits in non-strict mode
(the model also accepts them, since it never inspects those bits). -/

/-- Bytes of the standard base64 alphabet. -/
def b64chars : List Nat :=
  strBytes "ABCDEFGHIJKLMNOPQRSTUVWXYZabcdefghijklmnopqrstuvwxyz0123456789+/"

/-- Alphabet byte of a six-bit value. -/
def b64enc (x : Nat) : Nat := b64chars.getD x 0

/-- Six-bit value of an alphabet byte, none when the byte is not in the
alphabet. Byte 61 is the padding byte and is not in the alphabet. -/
def b64idx (c : Nat) : Option Nat := b64chars.findIdx? (fun x => x == c)

/-- Standard base64 encoding of a byte sequence, modelling
base64.StdEncoding.Encode: groups of three bytes become four alphabet
bytes, a trailing group of one or two bytes is padded with byte 61. -/
def b64encode : List Nat → List Nat
  | [] => []
  | [a] => [b64enc (a / 4), b64enc (a % 4 * 16), 61, 61]
  | [a, b] => [b64enc (a / 4), b64enc (a % 4 * 16 + b / 16), b64enc (b % 16 * 4), 61]
  | a :: b :: c :: rest =>
    b64enc (a / 4) :: b64enc (a % 4 * 16 + b / 16) :: b64enc (b % 16 * 4 + c / 64)
      :: b64enc (c % 64) :: b64encode rest

/-- Standard base64 decoding, modelling base64.StdEncoding.Decode: consumes
quanta of four bytes, allows padding only in the final quantum, and fails
on any byte outside the alphabet. -/
def b64decode : List Nat → Option (List Nat)
  | [] => some []
  | c1 :: c2 :: c3 :: c4 :: rest =>
    match b64idx c1, b64idx c2 with
    | some x1, some x2 =>
      if c3 = 61 then
        if c4 = 61 ∧ rest = [] then some [x1 * 4 + x2 / 16] else none
      else
        match b64idx c3 with
        | some x3 =>
          if c4 = 61 then
            if rest = [] then some [x1 * 4 + x2 / 16, x2 % 16 * 16 + x3 / 4] else none
          else
            match b64idx c4, b64decode rest with
            | some x4, some bs =>
              some ((x1 * 4 + x2 / 16) :: (x2 % 16 * 16 + x3 / 4)
                :: (x3 % 4 * 64 + x4) :: bs)
            | _, _ => none
        | none => none
    | _, _ => none
  | _ => none

/-- Failure modes of UnsealEncoded after a response has been received.
decodeFailure wraps the base64 error of a 200 body; deniedByPolicy is the
ErrDeniedByPolicy sentinel returned for 403; notReady wraps ErrNotReady
with the 503 body text; unexpectedStatus wraps ErrUnexpectedHTTPStatus with
the status code and body text of any other response. -/
inductive UnsealErr : Type
  | decodeFailure : UnsealErr
  | deniedByPolicy : UnsealErr
  | notReady (body : List Nat) : UnsealErr
  | unexpectedStatus (code : Nat) (body : List Nat) : UnsealErr
deriving DecidableEq

/-- Response classification of UnsealEncoded, from the switch on
resp.StatusCode: 200 decodes the body as base64, 403 returns the policy
sentinel ignoring the body, 503 returns not-ready carrying the body, and
every other status returns the unexpected-status error carrying code and
body. -/
def unsealClassify (status : Nat) (respBody : List Nat) : Except UnsealErr (List Nat) :=
  if status = 200 then
    match b64decode respBody with
    | some bs => .ok bs
    | none => .error .decodeFailure
  else if status = 403 then .error .deniedByPolicy
  else if status = 503 then .error (.notReady respBody)
  else .error (.unexpectedStatus status respBody)

/-! ## SealFile output scanning

Source: src/blindfold/blindfold.go lines 232-249. The stdout stream of the
vesctl subprocess is scanned with a default bufio.Scanner (no Buffer call)
and bufio.ScanLines: a token per line, the newline terminator removed and
one trailing carriage return stripped, a final non-terminated line
returned as a token, and no empty token after a terminating final
newline. The Scanner buffer grows at most to MaxScanTokenSize (65536)
bytes, and the stream comes from a bytes.Reader, which never returns data
and EOF together; so each call to Scan either yields the next line token,
whose raw content (the bytes before the terminator, carriage return
included, terminator excluded) is at most 65535 bytes, or, when that raw
content reaches 65536 bytes, stops with ErrTooLong - the 65536-byte
window can never contain such a line together with its newline, and for a
final non-terminated line the full-buffer check fires before the read
that would discover EOF. The loop keeps the token at line count one (the
second line) and breaks there, so later lines are never scanned; after
the loop, scanner.Err() is checked and a scan failure is returned wrapped
as an error (lines 246-248), else the data, which stays nil if no second
line was reached. -/

/-- Mirrors the dropCR helper of bufio.ScanLines: strips one trailing
carriage return (byte 13). -/
def dropCR (l : List Nat) : List Nat :=
  if l.getLast? = some 13 then l.dropLast else l

/-- Raw line contents of a stream, before dropCR: acc holds the bytes of
the current line read so far, byte 10 terminates a line; a final
non-terminated line counts, a terminating final newline adds nothing. -/
def rawLinesAux (acc : List Nat) : List Nat → List (List Nat)
  | [] => if acc = [] then [] else [acc]
  | b :: rest =>
    if b = 10 then acc :: rawLinesAux [] rest
    else rawLinesAux (acc ++ [b]) rest

/-- Raw line contents of a stream. -/
def rawLines (s : List Nat) : List (List Nat) := rawLinesAux [] s

/-- Token-size limit of a default bufio.Scanner, bufio.MaxScanTokenSize. -/
def MaxScanTokenSize : Nat := 65536

/-- Error returned by SealFile when the scanner stops with
bufio.ErrTooLong: the scanner error wrapped by line 247. -/
def scanTooLong : GoErr :=
  .wrap "failed to scan vesctl output" (.osErr "bufio.Scanner: token too long")

/-- Scan loop of SealFile over the raw lines: each Scan call yields the
next line token unless the raw line reaches the token-size limit, in
which case the loop stops and scanner.Err() surfaces as an error; the
token seen at lineCount one is kept after dropCR, the loop breaking
there so later lines are never scanned. -/
def sealScanLoop : List (List Nat) → Nat → Except GoErr (Option (List Nat))
  | [], _ => .ok none
  | l :: rest, lineCount =>
    if MaxScanTokenSize ≤ l.length then .error scanTooLong
    else if lineCount = 1 then .ok (some (dropCR l))
    else sealScanLoop rest (lineCount + 1)

/-- Result of the scan portion of SealFile on a zero-exit run: either the
wrapped scanner error, or the kept data, none modelling a nil slice. -/
def sealFileScan (stream : List Nat) : Except GoErr (Option (List Nat)) :=
  sealScanLoop (rawLines stream) 0

/-! ## WaitForReady polling loop

Source: src/wingman/status.go lines 36-78. The loop is driven by a timer;
each timer fire issues one status probe, whose outcome is one of: a
transport failure of client.Do, a response whose body read fails, or a
response with a status code and body. A transport failure resets the timer
and the loop continues; a response with status 200 and body READY returns
nil immediately; any other readable response resets the timer and the loop
continues. When the body read fails the code logs and falls through
without resetting the timer, so the drained timer never fires again and no
further probe is ever issued: the loop can only end through context
cancellation. The model consumes a schedule of probe outcomes, counting
the probes issued: ready n models the nil return after n probes, pending n
models a loop still armed for another probe when the schedule ends, and
stuck n models the permanently idle loop that no longer probes and returns
ErrNotReady only when the context is cancelled. -/

inductive ProbeOutcome : Type
  | transportError : ProbeOutcome
  | bodyReadError : ProbeOutcome
  | response (status : Nat) (body : List Nat) : ProbeOutcome
deriving DecidableEq

/-- Body that counts as ready, the literal READY. -/
def readyBody : List Nat := strBytes "READY"

/-- Success test of one probe, from the condition
resp.StatusCode == 200 and bytes.Equal(body, READY). -/
def isReadyResp : ProbeOutcome → Bool
  | .response status body => status == 200 && body == readyBody
  | _ => false

/-- Probe outcomes that leave the loop armed for a further probe: a
transport error or a readable response that is not ready. -/
def notYetReady : ProbeOutcome → Bool
  | .transportError => true
  | .bodyReadError => false
  | .response status body => !(status == 200 && body == readyBody)

inductive WaitOutcome : Type
  | ready (probes : Nat) : WaitOutcome
  | pending (probes : Nat) : WaitOutcome
  | stuck (probes : Nat) : WaitOutcome
deriving DecidableEq

/-- Run of the WaitForReady select loop over a schedule of probe outcomes,
n counting the probes already issued. -/
def waitForReadyRun : List ProbeOutcome → Nat → WaitOutcome
  | [], n => .pending n
  | .transportError :: rest, n => waitForReadyRun rest (n + 1)
  | .bodyReadError :: _, n => .stuck (n + 1)
  | .response status body :: rest, n =>
    if status == 200 && body == readyBody then .ready (n + 1)
    else waitForReadyRun rest (n + 1)

/-! ## Temporary file lifecycle of the seal path

Source: src/blindfold/blindfold.go, ExecuteVesctl (lines 65-77), Seal
(lines 129-160), createTempYAMLEnvelope (lines 164-185) and SealFile
(lines 190-230). Paths are modelled as component lists; the effect of each
function is the list of paths it creates and the list of removal requests
(os.Remove of an exact path, os.RemoveAll of a directory subtree) it
issues before returning, under a failure-injection oracle covering each
step that can fail. Write and close failures of createTempYAMLEnvelope are
folded into one staging failure per file, occurring after the file exists;
cancellation surfaces as a cmd.Run failure (runOk false). The code only
logs a failed removal, so a removal here records the request being issued
on that exit path. -/

/-- Filesystem path as a component list; a removal of path r deletes every
path extending r. -/
abbrev FSPath : Type := List String

/-- Created paths and removal requests of one call, with its success
flag. -/
structure FSTrace : Type where
  ok : Bool
  created : List FSPath
  removed : List FSPath

/-- Every created path of a trace is covered by a removal request issued
before the call returns. -/
def cleanedUp (t : FSTrace) : Prop :=
  ∀ p ∈ t.created, ∃ r ∈ t.removed, ∃ rest, r ++ rest = p

/-- Fresh names drawn by one seal invocation: the decoy file of
ExecuteVesctl, the temp dir and plaintext file of Seal, and the temp dir
and two envelope files of SealFile. -/
structure SealNames : Type where
  decoyFile : String
  sealTmpDir : String
  plaintextFile : String
  sealFileTmpDir : String
  pubKeyFile : String
  policyFile : String

/-- Failure-injection oracle for ExecuteVesctl: creation and close of the
decoy file, and the cmd.Run outcome (false also covers a cancelled or
killed process). -/
structure ExecOracle : Type where
  createTempOk : Bool
  closeOk : Bool
  runOk : Bool

/-- Failure-injection oracle for SealFile: vesctl lookup, temp dir
creation, staging of the two envelope files (create, then
marshal-write-close folded as one step), and the nested ExecuteVesctl. -/
structure SealFileOracle : Type where
  findOk : Bool
  mkdirOk : Bool
  pubKeyCreateOk : Bool
  pubKeyWriteOk : Bool
  policyCreateOk : Bool
  policyWriteOk : Bool
  execO : ExecOracle

/-- Failure-injection oracle for Seal: temp dir creation, plaintext file
creation, write and close, and the nested SealFile. -/
structure SealOracle : Type where
  mkdirOk : Bool
  plainCreateOk : Bool
  plainWriteOk : Bool
  plainCloseOk : Bool
  sf : SealFileOracle

/-- Filesystem trace of ExecuteVesctl: the decoy file is created under the
system temp root and its removal is deferred, so every return after a
successful creation issues the removal. -/
def executeVesctlFS (o : ExecOracle) (n : SealNames) : FSTrace :=
  if !o.createTempOk then ⟨false, [], []⟩
  else if !o.closeOk then ⟨false, [[n.decoyFile]], [[n.decoyFile]]⟩
  else ⟨o.runOk, [[n.decoyFile]], [[n.decoyFile]]⟩

/-- Filesystem trace of SealFile: a scoped temp dir whose recursive
removal is deferred right after creation, two envelope files staged inside
it, then ExecuteVesctl. -/
def sealFileFS (o : SealFileOracle) (n : SealNames) : FSTrace :=
  if !o.findOk then ⟨false, [], []⟩
  else if !o.mkdirOk then ⟨false, [], []⟩
  else if !o.pubKeyCreateOk then ⟨false, [[n.sealFileTmpDir]], [[n.sealFileTmpDir]]⟩
  else if !o.pubKeyWriteOk then
    ⟨false, [[n.sealFileTmpDir], [n.sealFileTmpDir, n.pubKeyFile]], [[n.sealFileTmpDir]]⟩
  else if !o.policyCreateOk then
    ⟨false, [[n.sealFileTmpDir], [n.sealFileTmpDir, n.pubKeyFile]], [[n.sealFileTmpDir]]⟩
  else if !o.policyWriteOk then
    ⟨false,
     [[n.sealFileTmpDir], [n.sealFileTmpDir, n.pubKeyFile], [n.sealFileTmpDir, n.policyFile]],
     [[n.sealFileTmpDir]]⟩
  else
    let e := executeVesctlFS o.execO n
    ⟨e.ok,
     [[n.sealFileTmpDir], [n.sealFileTmpDir, n.pubKeyFile], [n.sealFileTmpDir, n.policyFile]]
       ++ e.created,
     [[n.sealFileTmpDir]] ++ e.removed⟩

/-- Filesystem trace of Seal: a scoped temp dir whose recursive removal is
deferred right after creation, the plaintext staged inside it, then
SealFile. -/
def sealFS (o : SealOracle) (n : SealNames) : FSTrace :=
  if !o.mkdirOk then ⟨false, [], []⟩
  else if !o.plainCreateOk then ⟨false, [[n.sealTmpDir]], [[n.sealTmpDir]]⟩
  else if !o.plainWriteOk then
    ⟨false, [[n.sealTmpDir], [n.sealTmpDir, n.plaintextFile]], [[n.sealTmpDir]]⟩
  else if !o.plainCloseOk then
    ⟨false, [[n.sealTmpDir], [n.sealTmpDir, n.plaintextFile]], [[n.sealTmpDir]]⟩
  else
    let s := sealFileFS o.sf n
    ⟨s.ok,
     [[n.sealTmpDir], [n.sealTmpDir, n.plaintextFile]] ++ s.created,
     [[n.sealTmpDir]] ++ s.removed⟩

end F5xc

namespace F5xc

theorem randomString_length (rnd : Nat → Nat) (n : Nat) :
    (RandomString rnd n).length = n := by
  simp [RandomString, String.length]

theorem randomString_chars (rnd : Nat → Nat) (n : Nat) :
    ((RandomString rnd n).data.all randomStringChars.contains) = true := by
  rw [List.all_eq_true]
  intro c hc
  simp only [RandomString, String.data] at hc
  rcases List.mem_map.mp hc with ⟨i, _, rfl⟩
  exact List.elem_eq_true_of_mem (List.get_mem _ _ _)

theorem b64idx_enc : ∀ x : Nat, x < 64 → b64idx (b64enc x) = some x ∧ b64enc x ≠ 61 := by
  decide

/-- Round trip of the standard base64 model: decoding the encoding of any
byte sequence recovers it exactly. -/
theorem b64_roundtrip : ∀ P : List Nat, (∀ x ∈ P, x < 256) → b64decode (b64encode P) = some P
  | [], _ => rfl
  | [a], h => by
    have ha : a < 256 := h a (by simp)
    have h1 := (b64idx_enc (a / 4) (by omega)).1
    have h2 := (b64idx_enc (a % 4 * 16) (by omega)).1
    simp [b64encode, b64decode, h1, h2]
    omega
  | [a, b], h => by
    have ha : a < 256 := h a (by simp)
    have hb : b < 256 := h b (by simp)
    have h1 := (b64idx_enc (a / 4) (by omega)).1
    have h2 := (b64idx_enc (a % 4 * 16 + b / 16) (by omega)).1
    have h3 := b64idx_enc (b % 16 * 4) (by omega)
    simp [b64encode, b64decode, h1, h2, h3.1, h3.2]
    omega
  | a :: b :: c :: rest, h => by
    have ha : a < 256 := h a (by simp)
    have hb : b < 256 := h b (by simp)
    have hc : c < 256 := h c (by simp)
    have h1 := (b64idx_enc (a / 4) (by omega)).1
    have h2 := (b64idx_enc (a % 4 * 16 + b / 16) (by omega)).1
    have h3 := b64idx_enc (b % 16 * 4 + c / 64) (by omega)
    have h4 := b64idx_enc (c % 64) (by omega)
    have ih := b64_roundtrip rest (fun x hx => h x (by simp [hx]))
    simp [b64encode, b64decode, h1, h2, h3.1, h3.2, h4.1, h4.2, ih]
    omega

/-- C3: the environment given to the vesctl child process is exactly the
explicit six-entry list with two fresh 16-character random strings over the
fixed alphabet, the decoy file path, and the fixed unreachable URL; the
ambient environment of the calling process is never consulted, so two runs
with different ambient credentials produce identical child environments up
to the per-invocation random draws and temp-file path. -/
theorem executeVesctl_env_isolated :
    ∀ (ambient ambient2 : List (String × String)) (tmp : String) (rnd1 rnd2 : Nat → Nat),
      executeVesctlEnv ambient tmp rnd1 rnd2 = executeVesctlEnv ambient2 tmp rnd1 rnd2
      ∧ executeVesctlEnv ambient tmp rnd1 rnd2 =
          [("VES_P12_PASSWORD", RandomString rnd1 16),
           ("VOLT_API_P12_FILE", tmp),
           ("VOLT_API_CERT", tmp),
           ("VOLT_API_KEY", tmp),
           ("VOLT_API_URL", "https://f5xc.invalid/api"),
           ("VOLTERRA_TOKEN", RandomString rnd2 16)]
      ∧ (RandomString rnd1 16).length = 16
      ∧ (RandomString rnd2 16).length = 16
      ∧ ((RandomString rnd1 16).data.all randomStringChars.contains) = true
      ∧ ((RandomString rnd2 16).data.all randomStringChars.contains) = true := by
  intro ambient ambient2 tmp rnd1 rnd2
  exact ⟨rfl, rfl, randomString_length rnd1 16, randomString_length rnd2 16,
    randomString_chars rnd1 16, randomString_chars rnd2 16⟩

/-- C4 counterexample: a launch failure (cmd.Run returning the os-level
error of a binary that could not be started) is wrapped together with
ErrVesctl, so errors.Is with ErrVesctl is true, not false as the claim
states. -/
theorem executeVesctl_launch_failure_is_errVesctl :
    executeVesctlErr none none (some (.osErr "fork/exec /bin/vesctl: no such file or directory"))
        = some (.wrap2 "failure while executing vesctl"
            (.osErr "fork/exec /bin/vesctl: no such file or directory") .errVesctl)
      ∧ errorIs (.wrap2 "failure while executing vesctl"
            (.osErr "fork/exec /bin/vesctl: no such file or directory") .errVesctl)
          .errVesctl = true := by
  exact ⟨rfl, by decide⟩

/-- C4 amended: ExecuteVesctl wraps every cmd.Run failure, launch failures
and non-zero exits alike, with ErrVesctl, so errors.Is against ErrVesctl is
true for both kinds; only the pre-launch temp-file failures propagate
without the marker. -/
theorem executeVesctl_run_failures_wrapped :
    ∀ (e : GoErr) (m : String),
      executeVesctlErr none none (some e)
          = some (.wrap2 "failure while executing vesctl" e .errVesctl)
      ∧ errorIs (.wrap2 "failure while executing vesctl" e .errVesctl) .errVesctl = true
      ∧ executeVesctlErr none none none = none
      ∧ errorIs (.wrap "failed to create empty file" (.osErr m)) .errVesctl = false
      ∧ executeVesctlErr (some m) none (some e)
          = some (.wrap "failed to create empty file" (.osErr m)) := by
  intro e m
  refine ⟨rfl, ?_, rfl, ?_, rfl⟩
  · simp [errorIs, beq_iff_eq]
  · simp [errorIs, beq_iff_eq]

/-- C7 counterexample: UnsealEncoded issues its request to the endpoint
string exactly as supplied; for the endpoint http://wingman.example the
request URL is http://wingman.example, not with /secret/unseal appended. -/
theorem unsealRequest_url_no_path_appended :
    (unsealRequest "http://wingman.example" (strBytes "AAAA")).url = "http://wingman.example"
      ∧ ("http://wingman.example" ++ UnsealEndpoint ≠ "http://wingman.example") := by
  exact ⟨rfl, by decide⟩

/-- C7 amended: UnsealEncoded issues a POST with Content-Type
application/json to the endpoint URL exactly as given, appending nothing;
the /secret/unseal path is appended only by the DefaultUnsealEncoded
convenience, whose endpoint is DefaultWingmanURL ++ UnsealEndpoint. -/
theorem unsealRequest_method_url :
    ∀ (endpoint : String) (sealed : List Nat),
      (unsealRequest endpoint sealed).method = "POST"
      ∧ (unsealRequest endpoint sealed).contentType = "application/json"
      ∧ (unsealRequest endpoint sealed).url = endpoint
      ∧ (defaultUnsealRequest sealed).url = "http://localhost:8070/secret/unseal" := by
  intro endpoint sealed
  exact ⟨rfl, rfl, rfl, rfl⟩

/-- C8: the request body of UnsealEncoded is the exact byte concatenation
of the envelope prefix, the sealed bytes verbatim, and the closing
fragment; the empty input goes through the same concatenation and yields
the bare envelope. -/
theorem unsealBody_shape :
    ∀ sealed : List Nat,
      unsealBody sealed
          = strBytes "\x7b\"type\":\"blindfold\",\"location\":\"string:///" ++ sealed
            ++ strBytes "\"\x7d"
      ∧ (unsealRequest "http://localhost:8070" sealed).body = unsealBody sealed
      ∧ (unsealBody sealed).length = sealed.length + 44
      ∧ unsealBody [] = strBytes "\x7b\"type\":\"blindfold\",\"location\":\"string:///\"\x7d" := by
  intro sealed
  refine ⟨rfl, rfl, ?_, by decide⟩
  simp [unsealBody, strBytes]

/-- C1: the outcome of an unseal request is classified by the response
status: 200 with a body that is the base64 encoding of bytes P yields
exactly P, 403 yields the policy-denied sentinel regardless of body, 503
yields the not-ready error carrying the body text, and any other status
yields the unexpected-status error carrying both the code and the body. -/
theorem unsealEncoded_status_classification (status : Nat) (body P : List Nat)
    (hP : ∀ x ∈ P, x < 256) :
    (status = 200 → body = b64encode P → unsealClassify status body = .ok P)
    ∧ (status = 403 → unsealClassify status body = .error .deniedByPolicy)
    ∧ (status = 503 → unsealClassify status body = .error (.notReady body))
    ∧ (status ≠ 200 → status ≠ 403 → status ≠ 503 →
        unsealClassify status body = .error (.unexpectedStatus status body)) := by
  refine ⟨?_, ?_, ?_, ?_⟩
  · rintro rfl rfl
    simp [unsealClassify, b64_roundtrip P hP]
  · rintro rfl
    simp [unsealClassify]
  · rintro rfl
    simp [unsealClassify]
  · intro h200 h403 h503
    simp [unsealClassify, h200, h403, h503]

/-- C1 witness: the four classifications at the concrete responses named by
the specification, with Secret as the 200 payload. -/
theorem unsealEncoded_status_classification_witness :
    unsealClassify 200 (b64encode (strBytes "Secret")) = .ok (strBytes "Secret")
    ∧ unsealClassify 403 (strBytes "nope") = .error .deniedByPolicy
    ∧ unsealClassify 503 (strBytes "warming up") = .error (.notReady (strBytes "warming up"))
    ∧ unsealClassify 500 (strBytes "boom") = .error (.unexpectedStatus 500 (strBytes "boom")) :=
  ⟨(unsealEncoded_status_classification 200 (b64encode (strBytes "Secret")) (strBytes "Secret")
      (by decide)).1 rfl rfl,
   (unsealEncoded_status_classification 403 (strBytes "nope") [] (by decide)).2.1 rfl,
   (unsealEncoded_status_classification 503 (strBytes "warming up") [] (by decide)).2.2.1 rfl,
   (unsealEncoded_status_classification 500 (strBytes "boom") [] (by decide)).2.2.2
     (by decide) (by decide) (by decide)⟩

/-- C10: a 200 response whose body is not valid base64 yields the decode
failure and no plaintext, and a 200 response yields plaintext p only when
the body decodes to p. -/
theorem unsealEncoded_200_requires_base64 :
    ∀ body : List Nat,
      (b64decode body = none → unsealClassify 200 body = .error .decodeFailure)
      ∧ ∀ p : List Nat, unsealClassify 200 body = .ok p → b64decode body = some p := by
  intro body
  constructor
  · intro h
    simp [unsealClassify, h]
  · intro p h
    rcases hd : b64decode body with _ | bs
    · simp [unsealClassify, hd] at h
    · simp [unsealClassify, hd] at h
      rw [h]

/-- C10 witness: four caret bytes are not valid base64, and the 200
response with that body yields the decode failure. -/
theorem unsealEncoded_200_requires_base64_witness :
    unsealClassify 200 (strBytes "^^^^") = .error .decodeFailure :=
  (unsealEncoded_200_requires_base64 (strBytes "^^^^")).1 (by decide)

theorem rawLinesAux_no_newline (s : List Nat) :
    ∀ acc : List Nat, (∀ b ∈ s, b ≠ 10) →
      rawLinesAux acc s = if acc ++ s = [] then [] else [acc ++ s] := by
  induction s with
  | nil =>
    intro acc _
    simp [rawLinesAux]
  | cons b rest ih =>
    intro acc h
    have hb : b ≠ 10 := h b (by simp)
    rw [rawLinesAux, if_neg hb, ih (acc ++ [b]) (fun x hx => h x (by simp [hx]))]
    have harr : (acc ++ [b]) ++ rest = acc ++ (b :: rest) := by simp
    rw [harr]

theorem rawLines_replicate_a (n : Nat) (hn : n ≠ 0) :
    rawLines (List.replicate n 97) = [List.replicate n 97] := by
  rw [rawLines, rawLinesAux_no_newline (List.replicate n 97) []
    (fun b hb => by rw [List.eq_of_mem_replicate hb]; decide)]
  simp [hn]

/-- C2 counterexample: a stdout stream that is a single non-terminated
line of 65536 identical bytes has fewer than two lines, yet SealFile on a
zero-exit run returns the wrapped bufio.ErrTooLong scan error, not nil
data without an error as the claim states. -/
theorem sealFile_too_long_line_errors :
    sealFileScan (List.replicate 65536 97) = .error scanTooLong
    ∧ (rawLines (List.replicate 65536 97)).length = 1 := by
  rw [sealFileScan, rawLines_replicate_a 65536 (by decide)]
  constructor
  · rw [sealScanLoop]
    rw [if_pos (by rw [List.length_replicate]; decide)]
  · rfl

/-- C2 amended: on a zero-exit run whose scanned lines (the first two raw
lines of the stdout stream) are each under the 64 KiB scanner token
limit, SealFile returns exactly the second line token, terminator
stripped and one trailing carriage return removed, and returns nil
without an error when the stream has fewer than two lines; a first or
second raw line of 65536 bytes or more instead makes SealFile return the
scan error even with exit status zero. -/
theorem sealFile_second_line :
    ∀ stream : List Nat,
      (∀ l ∈ (rawLines stream).take 2, l.length < MaxScanTokenSize) →
        sealFileScan stream = .ok ((rawLines stream).map dropCR)[1]?
        ∧ ((rawLines stream).length < 2 → sealFileScan stream = .ok none) := by
  intro stream h
  rw [sealFileScan]
  rcases hr : rawLines stream with _ | ⟨l0, _ | ⟨l1, ts⟩⟩
  · exact ⟨rfl, fun _ => rfl⟩
  · rw [hr] at h
    have h0 : ¬ MaxScanTokenSize ≤ l0.length := by
      have := h l0 (by simp)
      omega
    constructor
    · rw [sealScanLoop, if_neg h0]
      rfl
    · intro _
      rw [sealScanLoop, if_neg h0]
      rfl
  · rw [hr] at h
    have h0 : ¬ MaxScanTokenSize ≤ l0.length := by
      have := h l0 (by simp)
      omega
    have h1 : ¬ MaxScanTokenSize ≤ l1.length := by
      have := h l1 (by simp)
      omega
    constructor
    · rw [sealScanLoop, if_neg h0, if_neg (show (0 : Nat) ≠ 1 by decide)]
      rw [sealScanLoop, if_neg h1, if_pos (show (0 : Nat) + 1 = 1 by decide)]
      simp
    · intro hlen
      simp at hlen
      omega

/-- C5: evaluation of the polling loop at the failing schedule. A probe
whose response body read fails is not followed by any further probe: the
loop goes permanently idle (stuck after one probe) even though the next
probe in the schedule would have returned READY, contradicting the claim
that every failed probe is followed by another probe. For contrast, a
transport failure and not-yet-ready responses do keep the loop probing
until the ready response is reached. -/
theorem waitForReady_body_error_stalls :
    waitForReadyRun [.bodyReadError, .response 200 readyBody] 0 = .stuck 1
    ∧ waitForReadyRun
        [.transportError, .response 503 [], .response 200 (strBytes "INITIALIZING"),
         .response 200 readyBody] 0 = .ready 4 := by
  decide

/-- C6: the polling loop returns nil exactly when a probe it issues
receives a response with status 200 and body READY: the run over a
schedule ends ready after n plus k plus one probes precisely when the
first k scheduled outcomes all leave the loop polling (no ready response,
no body-read stall) and outcome k is a 200 READY response; in particular
no other status or body is ever treated as ready, and the loop stops at
the first ready probe. -/
theorem waitForReady_ready_iff :
    ∀ (outcomes : List ProbeOutcome) (n m : Nat),
      waitForReadyRun outcomes n = .ready m ↔
        ∃ k, ((outcomes.take k).all notYetReady = true)
          ∧ (∃ o, outcomes[k]? = some o ∧ isReadyResp o = true)
          ∧ m = n + k + 1 := by
  intro outcomes
  induction outcomes with
  | nil =>
    intro n m
    simp [waitForReadyRun]
  | cons o rest ih =>
    intro n m
    cases o with
    | transportError =>
      rw [waitForReadyRun, ih (n + 1) m]
      constructor
      · rintro ⟨k, hall, ⟨o, hk, hro⟩, rfl⟩
        refine ⟨k + 1, ?_, ⟨o, by simpa using hk, hro⟩, by omega⟩
        simp only [List.take_succ_cons, List.all_cons, Bool.and_eq_true]
        exact ⟨by simp [notYetReady], hall⟩
      · rintro ⟨k, hall, ⟨o, hk, hro⟩, hm⟩
        cases k with
        | zero =>
          simp at hk
          rw [← hk] at hro
          simp [isReadyResp] at hro
        | succ k =>
          simp only [List.take_succ_cons, List.all_cons, Bool.and_eq_true] at hall
          exact ⟨k, hall.2, ⟨o, by simpa using hk, hro⟩, by omega⟩
    | bodyReadError =>
      rw [waitForReadyRun]
      constructor
      · intro h
        exact absurd h (by simp)
      · rintro ⟨k, hall, ⟨o, hk, hro⟩, hm⟩
        cases k with
        | zero =>
          simp at hk
          rw [← hk] at hro
          simp [isReadyResp] at hro
        | succ k =>
          simp only [List.take_succ_cons, List.all_cons, Bool.and_eq_true] at hall
          simp [notYetReady] at hall
    | response status body =>
      by_cases hready : (status == 200 && body == readyBody) = true
      · rw [waitForReadyRun]
        rw [if_pos hready]
        constructor
        · intro h
          refine ⟨0, by simp, ⟨.response status body, by simp, by simp [isReadyResp, hready]⟩, ?_⟩
          cases h
          omega
        · rintro ⟨k, hall, ⟨o, hk, hro⟩, hm⟩
          cases k with
          | zero =>
            simp only [WaitOutcome.ready.injEq]
            omega
          | succ k =>
            simp only [List.take_succ_cons, List.all_cons, Bool.and_eq_true] at hall
            simp [notYetReady, hready] at hall
      · rw [waitForReadyRun]
        rw [if_neg hready]
        rw [ih (n + 1) m]
        rw [Bool.not_eq_true] at hready
        constructor
        · rintro ⟨k, hall, ⟨o, hk, hro⟩, rfl⟩
          refine ⟨k + 1, ?_, ⟨o, by simpa using hk, hro⟩, by omega⟩
          simp only [List.take_succ_cons, List.all_cons, Bool.and_eq_true]
          exact ⟨by simp [notYetReady, hready], hall⟩
        · rintro ⟨k, hall, ⟨o, hk, hro⟩, hm⟩
          cases k with
          | zero =>
            simp at hk
            rw [← hk] at hro
            simp [isReadyResp] at hro
            simp [hro] at hready
          | succ k =>
            simp only [List.take_succ_cons, List.all_cons, Bool.and_eq_true] at hall
            exact ⟨k, hall.2, ⟨o, by simpa using hk, hro⟩, by omega⟩

theorem exec_cleanedUp (o : ExecOracle) (n : SealNames) : cleanedUp (executeVesctlFS o n) := by
  intro p hp
  by_cases h1 : o.createTempOk
  · by_cases h2 : o.closeOk
    · simp [executeVesctlFS, h1, h2] at hp
      exact ⟨[n.decoyFile], by simp [executeVesctlFS, h1, h2], [], by simp [hp]⟩
    · simp [executeVesctlFS, h1, h2] at hp
      exact ⟨[n.decoyFile], by simp [executeVesctlFS, h1, h2], [], by simp [hp]⟩
  · simp [executeVesctlFS, h1] at hp

theorem sealFile_cleanedUp (o : SealFileOracle) (n : SealNames) :
    cleanedUp (sealFileFS o n) := by
  intro p hp
  by_cases h1 : o.findOk
  case neg => simp [sealFileFS, h1] at hp
  by_cases h2 : o.mkdirOk
  case neg => simp [sealFileFS, h1, h2] at hp
  by_cases h3 : o.pubKeyCreateOk
  case neg =>
    simp [sealFileFS, h1, h2, h3] at hp
    exact ⟨[n.sealFileTmpDir], by simp [sealFileFS, h1, h2, h3], [], by simp [hp]⟩
  by_cases h4 : o.pubKeyWriteOk
  case neg =>
    simp [sealFileFS, h1, h2, h3, h4] at hp
    refine ⟨[n.sealFileTmpDir], by simp [sealFileFS, h1, h2, h3, h4], ?_⟩
    rcases hp with rfl | rfl
    · exact ⟨[], by simp⟩
    · exact ⟨[n.pubKeyFile], by simp⟩
  by_cases h5 : o.policyCreateOk
  case neg =>
    simp [sealFileFS, h1, h2, h3, h4, h5] at hp
    refine ⟨[n.sealFileTmpDir], by simp [sealFileFS, h1, h2, h3, h4, h5], ?_⟩
    rcases hp with rfl | rfl
    · exact ⟨[], by simp⟩
    · exact ⟨[n.pubKeyFile], by simp⟩
  by_cases h6 : o.policyWriteOk
  case neg =>
    simp [sealFileFS, h1, h2, h3, h4, h5, h6] at hp
    refine ⟨[n.sealFileTmpDir], by simp [sealFileFS, h1, h2, h3, h4, h5, h6], ?_⟩
    rcases hp with rfl | rfl | rfl
    · exact ⟨[], by simp⟩
    · exact ⟨[n.pubKeyFile], by simp⟩
    · exact ⟨[n.policyFile], by simp⟩
  simp [sealFileFS, h1, h2, h3, h4, h5, h6] at hp
  rcases hp with rfl | rfl | rfl | hp
  · exact ⟨[n.sealFileTmpDir], by simp [sealFileFS, h1, h2, h3, h4, h5, h6], [], by simp⟩
  · exact ⟨[n.sealFileTmpDir], by simp [sealFileFS, h1, h2, h3, h4, h5, h6],
      [n.pubKeyFile], by simp⟩
  · exact ⟨[n.sealFileTmpDir], by simp [sealFileFS, h1, h2, h3, h4, h5, h6],
      [n.policyFile], by simp⟩
  · rcases exec_cleanedUp o.execO n p hp with ⟨r, hr, rest, hrest⟩
    exact ⟨r, by simp [sealFileFS, h1, h2, h3, h4, h5, h6]; right; exact hr, rest, hrest⟩

theorem seal_cleanedUp (o : SealOracle) (n : SealNames) : cleanedUp (sealFS o n) := by
  intro p hp
  by_cases h1 : o.mkdirOk
  case neg => simp [sealFS, h1] at hp
  by_cases h2 : o.plainCreateOk
  case neg =>
    simp [sealFS, h1, h2] at hp
    exact ⟨[n.sealTmpDir], by simp [sealFS, h1, h2], [], by simp [hp]⟩
  by_cases h3 : o.plainWriteOk
  case neg =>
    simp [sealFS, h1, h2, h3] at hp
    refine ⟨[n.sealTmpDir], by simp [sealFS, h1, h2, h3], ?_⟩
    rcases hp with rfl | rfl
    · exact ⟨[], by simp⟩
    · exact ⟨[n.plaintextFile], by simp⟩
  by_cases h4 : o.plainCloseOk
  case neg =>
    simp [sealFS, h1, h2, h3, h4] at hp
    refine ⟨[n.sealTmpDir], by simp [sealFS, h1, h2, h3, h4], ?_⟩
    rcases hp with rfl | rfl
    · exact ⟨[], by simp⟩
    · exact ⟨[n.plaintextFile], by simp⟩
  simp [sealFS, h1, h2, h3, h4] at hp
  rcases hp with rfl | rfl | hp
  · exact ⟨[n.sealTmpDir], by simp [sealFS, h1, h2, h3, h4], [], by simp⟩
  · exact ⟨[n.sealTmpDir], by simp [sealFS, h1, h2, h3, h4], [n.plaintextFile], by simp⟩
  · rcases sealFile_cleanedUp o.sf n p hp with ⟨r, hr, rest, hrest⟩
    exact ⟨r, by simp [sealFS, h1, h2, h3, h4]; right; exact hr, rest, hrest⟩

/-- C9: on every exit path of Seal, SealFile and ExecuteVesctl, under any
combination of step failures including a failed or cancelled subprocess
run, every temporary path created by the invocation (decoy file, scoped
temp dirs, staged plaintext, public-key and policy-document files) is
covered by a removal request issued before the invocation returns. -/
theorem seal_temp_cleanup :
    ∀ (o : SealOracle) (n : SealNames),
      cleanedUp (sealFS o n) ∧ cleanedUp (sealFileFS o.sf n)
        ∧ cleanedUp (executeVesctlFS o.sf.execO n) :=
  fun o n => ⟨seal_cleanedUp o n, sealFile_cleanedUp o.sf n, exec_cleanedUp o.sf.execO n⟩

/-- C9 witness: on the all-success path with concrete names, the staged
plaintext file inside the Seal temp dir is covered by the deferred
recursive removal of that dir. -/
theorem seal_temp_cleanup_witness :
    ∃ r ∈ (sealFS ⟨true, true, true, true, ⟨true, true, true, true, true, true,
        ⟨true, true, true⟩⟩⟩ ⟨"vesctl123", "d1", "pt", "d2", "pub", "pol"⟩).removed,
      ∃ rest, r ++ rest = ["d1", "pt"] :=
  (seal_temp_cleanup ⟨true, true, true, true, ⟨true, true, true, true, true, true,
    ⟨true, true, true⟩⟩⟩ ⟨"vesctl123", "d1", "pt", "d2", "pub", "pol"⟩).1
    ["d1", "pt"] (by simp [sealFS, sealFileFS, executeVesctlFS])

/-- C2 witness: the specification example stream of a header line and a
payload line, whose lines are within the token limit, yields exactly the
payload bytes, and a single-line stream yields nil without an error. -/
theorem sealFile_second_line_witness :
    sealFileScan (strBytes "header line\npayload-line\n") = .ok (some (strBytes "payload-line"))
    ∧ sealFileScan (strBytes "just one line") = .ok none :=
  ⟨((sealFile_second_line (strBytes "header line\npayload-line\n") (by decide)).1).trans
      (congrArg Except.ok (by decide)),
   (sealFile_second_line (strBytes "just one line") (by decide)).2 (by decide)⟩

end F5xc
